import Mathlib

/-
  Shallow embedding of the hvacapp Flask application (src/app.py), a
  multi-tenant operations tracker.  The SQLite database is modelled as lists
  of rows with explicit autoincrement counters; each route handler becomes a
  pure function from the database state (plus the request's form fields and
  session company id) to either an HTTP error (`abort(400)` / `abort(404)`)
  or the committed database state.  External collaborators (werkzeug password
  hashing, the `secrets` CSPRNG byte source, wall-clock timestamps) are
  passed in as parameters, mirroring the call sites in app.py.
-/

set_option maxHeartbeats 1000000

namespace Hvac

/-- Outcome of `abort(400)` / `abort(404)` in the handlers. -/
inductive Http where
  | badRequest
  | notFound
deriving Repr, DecidableEq

/-- Row of the `companies` table (app.py, init_db). -/
structure Company where
  id : Nat
  name : String
  created_at : String
deriving Repr, DecidableEq

/-- Row of the `users` table; `company_id` is nullable in the schema. -/
structure User where
  id : Nat
  company_id : Option Nat
  username : String
  password_hash : String
  role : String
  created_at : String
deriving Repr, DecidableEq

/-- Row of the `leads` table.  `company_id` and the descriptive columns are
added by `ensure_column` migrations and hence nullable. -/
structure Lead where
  id : Nat
  company_id : Option Nat
  name : String
  phone : String
  status : String
  service_type : Option String
  src : Option String
  address : Option String
  notes : Option String
  created_at : String
deriving Repr, DecidableEq

/-- Row of the `jobs` table. -/
structure Job where
  id : Nat
  company_id : Option Nat
  lead_id : Option Nat
  customer_name : String
  status : String
  scheduled_date : Option String
  technician : Option String
  notes : Option String
  created_at : String
deriving Repr, DecidableEq

/-- Row of the `invoices` table.  `amount` is a SQLite REAL; no claim depends
on its arithmetic, so it is carried as a rational number. -/
structure Invoice where
  id : Nat
  company_id : Option Nat
  job_id : Nat
  amount : Rat
  status : String
  due_date : Option String
  created_at : String
  paid_at : Option String
  public_token : Option String
  customer_email : Option String
deriving Repr, DecidableEq

/-- Row of the `tasks` table; `company_id` and `job_id` are NOT NULL. -/
structure Task where
  id : Nat
  company_id : Nat
  job_id : Nat
  title : String
  status : String
  due_date : Option String
  assigned_to : Option String
  created_at : String
deriving Repr, DecidableEq

/-- The whole SQLite database: one list per table, plus the AUTOINCREMENT
counter for each primary key. -/
structure DB where
  companies : List Company
  users : List User
  leads : List Lead
  jobs : List Job
  invoices : List Invoice
  tasks : List Task
  nextCompanyId : Nat
  nextUserId : Nat
  nextLeadId : Nat
  nextJobId : Nat
  nextInvoiceId : Nat
  nextTaskId : Nat
deriving Repr, DecidableEq

/-- The state of a database right after `init_db()` on a fresh file: all
tables exist and are empty, AUTOINCREMENT counters start at 1. -/
def emptyDB : DB :=
  { companies := [], users := [], leads := [], jobs := [], invoices := [], tasks := []
    nextCompanyId := 1, nextUserId := 1, nextLeadId := 1, nextJobId := 1
    nextInvoiceId := 1, nextTaskId := 1 }

/-- Python `x or d` on an optional form string: `None` and `""` are falsy. -/
def pyOrStr (o : Option String) (d : String) : String :=
  match o with
  | none => d
  | some s => if s = "" then d else s

/-- Leading-whitespace removal on a character list. -/
def dropLeading : List Char -> List Char
  | [] => []
  | c :: cs => if c.isWhitespace then dropLeading cs else c :: cs

/-- Python `s.strip()`: whitespace removed from both ends.  (Implemented
structurally over the character list so that it evaluates by kernel
reduction.) -/
def pyStrip (s : String) : String :=
  String.mk ((dropLeading (dropLeading s.data).reverse).reverse)

/-- Python `s.lower()` on the usernames handled by signup. -/
def pyLower (s : String) : String :=
  String.mk (s.data.map Char.toLower)

/-- Python `s.strip() or None` (empty after stripping becomes NULL). -/
def strOrNone (s : String) : Option String :=
  let t := pyStrip s
  if t = "" then none else some t

/-- Gregorian leap-year rule, as implemented by `datetime.strptime`. -/
def isLeap (y : Nat) : Bool :=
  (y % 4 == 0 && y % 100 != 0) || y % 400 == 0

/-- Number of days in a month, as validated by `datetime.strptime`. -/
def daysInMonth (y m : Nat) : Nat :=
  if m = 2 then (if isLeap y then 29 else 28)
  else if m = 4 ∨ m = 6 ∨ m = 9 ∨ m = 11 then 30
  else 31

/-- Splitting a character list at a separator, Python `str.split` style. -/
def splitOnCharAux (sep : Char) : List Char -> List Char -> List (List Char)
  | [], acc => [acc.reverse]
  | c :: cs, acc =>
    if c == sep then acc.reverse :: splitOnCharAux sep cs []
    else splitOnCharAux sep cs (c :: acc)

/-- The dash-separated groups of a date string. -/
def splitOnChar (sep : Char) (s : String) : List (List Char) :=
  splitOnCharAux sep s.data []

/-- Value of a digit sequence. -/
def digitsValAux : List Char -> Nat -> Nat
  | [], acc => acc
  | c :: cs, acc => digitsValAux cs (acc * 10 + (c.toNat - 48))

/-- Value of a digit sequence. -/
def digitsVal (cs : List Char) : Nat := digitsValAux cs 0

/-- Whether `datetime.strptime(s, "%Y-%m-%d")` succeeds: three dash-separated
digit groups forming a valid Gregorian calendar date. -/
def validYmd (s : String) : Bool :=
  match splitOnChar '-' s with
  | [ys, ms, ds] =>
    decide (ys ≠ []) && decide (ms ≠ []) && decide (ds ≠ []) &&
    ys.all Char.isDigit && ms.all Char.isDigit && ds.all Char.isDigit &&
    decide (ys.length ≤ 4) && decide (ms.length ≤ 2) && decide (ds.length ≤ 2) &&
    decide (1 ≤ digitsVal ys) &&
    decide (1 ≤ digitsVal ms) && decide (digitsVal ms ≤ 12) &&
    decide (1 ≤ digitsVal ds) && decide (digitsVal ds ≤ daysInMonth (digitsVal ys) (digitsVal ms))
  | _ => false

/-- app.py `parse_date_yyyy_mm_dd`: strip; empty becomes None; a string
rejected by `strptime("%Y-%m-%d")` silently becomes None. -/
def parse_date_yyyy_mm_dd (sIn : String) : Option String :=
  let s := pyStrip sIn
  if s = "" then none
  else if validYmd s then some s else none

/-- `SELECT * FROM leads WHERE id=? AND company_id=?` (first match). -/
def DB.findLead (db : DB) (lid cid : Nat) : Option Lead :=
  db.leads.find? (fun l => l.id == lid && l.company_id == some cid)

/-- `SELECT * FROM jobs WHERE id=? AND company_id=?` (first match). -/
def DB.findJob (db : DB) (jid cid : Nat) : Option Job :=
  db.jobs.find? (fun j => j.id == jid && j.company_id == some cid)

/-- `SELECT * FROM invoices WHERE id=? AND company_id=?` (first match). -/
def DB.findInvoice (db : DB) (iid cid : Nat) : Option Invoice :=
  db.invoices.find? (fun i => i.id == iid && i.company_id == some cid)

/-- `SELECT id, status FROM tasks WHERE id=? AND company_id=?` (first match). -/
def DB.findTask (db : DB) (tid cid : Nat) : Option Task :=
  db.tasks.find? (fun t => t.id == tid && t.company_id == cid)

/-- `SELECT COUNT(*) FROM users` compared with 0 (app.py `any_users_exist`). -/
def any_users_exist (db : DB) : Bool :=
  db.users.length > 0

/-- Allow-list in `update_lead_status`. -/
def allowedLeadStatuses : List String := ["New", "Contacted", "Scheduled", "Won", "Lost"]

/-- Allow-list in `update_job_status`. -/
def allowedJobStatuses : List String := ["Scheduled", "In Progress", "Completed", "Canceled"]

/-- The row transformation of
`UPDATE leads SET status=? WHERE id=? AND company_id=?`. -/
def leadUpd (lid cid : Nat) (st : String) (l : Lead) : Lead :=
  if l.id == lid && l.company_id == some cid then { l with status := st } else l

/-- The row transformation of
`UPDATE jobs SET status=? WHERE id=? AND company_id=?`. -/
def jobUpd (jid cid : Nat) (st : String) (j : Job) : Job :=
  if j.id == jid && j.company_id == some cid then { j with status := st } else j

/-- The row transformation of
`UPDATE invoices SET status='Paid', paid_at=? WHERE id=? AND company_id=?`. -/
def invUpd (iid cid : Nat) (now : String) (i : Invoice) : Invoice :=
  if i.id == iid && i.company_id == some cid then
    { i with status := "Paid", paid_at := some now } else i

/-- The row transformation of
`UPDATE tasks SET status=? WHERE id=? AND company_id=?`. -/
def taskUpd (tid cid : Nat) (st : String) (t : Task) : Task :=
  if t.id == tid && t.company_id == cid then { t with status := st } else t

/-- POST `/add_lead` (app.py `add_lead`): requires non-empty name and phone,
inserts a lead with status 'New'. -/
def add_lead (db : DB) (cid : Nat)
    (nameF phoneF serviceF sourceF addrF notesF : Option String) (now : String) :
    Except Http DB :=
  let name := pyStrip (nameF.getD "")
  let phone := pyStrip (phoneF.getD "")
  if name = "" ∨ phone = "" then .error .badRequest
  else
    let row : Lead :=
      { id := db.nextLeadId, company_id := some cid,
        name := name, phone := phone, status := "New",
        service_type := strOrNone (serviceF.getD ""),
        src := strOrNone (sourceF.getD ""),
        address := strOrNone (addrF.getD ""),
        notes := strOrNone (notesF.getD ""),
        created_at := now }
    .ok { db with leads := db.leads ++ [row], nextLeadId := db.nextLeadId + 1 }

/-- POST `/update_lead_status/<lead_id>` (app.py `update_lead_status`):
`status = (request.form.get("status") or "New").strip()`, allow-list check
(400), in-tenant lookup (404), then the UPDATE. -/
def update_lead_status (db : DB) (cid lid : Nat) (statusForm : Option String) :
    Except Http DB :=
  let status := pyStrip (pyOrStr statusForm "New")
  if status ∈ allowedLeadStatuses then
    match db.findLead lid cid with
    | none => .error .notFound
    | some _ => .ok { db with leads := db.leads.map (leadUpd lid cid status) }
  else .error .badRequest

/-- POST `/convert_lead/<lead_id>` (app.py `convert_lead`): in-tenant lookup
(404), insert a Job copying the lead's name with status 'Scheduled', then
force the lead's status to 'Scheduled'. -/
def convert_lead (db : DB) (cid lid : Nat) (schedForm techForm : Option String)
    (now : String) : Except Http DB :=
  let scheduled_date := parse_date_yyyy_mm_dd (schedForm.getD "")
  let technician := strOrNone (techForm.getD "")
  match db.findLead lid cid with
  | none => .error .notFound
  | some lead =>
    let row : Job :=
      { id := db.nextJobId, company_id := some cid,
        lead_id := some lid, customer_name := lead.name, status := "Scheduled",
        scheduled_date := scheduled_date, technician := technician,
        notes := none, created_at := now }
    .ok { db with jobs := db.jobs ++ [row], nextJobId := db.nextJobId + 1,
                  leads := db.leads.map (leadUpd lid cid "Scheduled") }

/-- POST `/update_job_status/<job_id>` (app.py `update_job_status`). -/
def update_job_status (db : DB) (cid jid : Nat) (statusForm : Option String) :
    Except Http DB :=
  let status := pyStrip (pyOrStr statusForm "Scheduled")
  if status ∈ allowedJobStatuses then
    match db.findJob jid cid with
    | none => .error .notFound
    | some _ => .ok { db with jobs := db.jobs.map (jobUpd jid cid status) }
  else .error .badRequest

/-- POST `/create_invoice/<job_id>` (app.py `create_invoice`).  `amountParsed`
is the result of Python `float(amount_raw)` (`none` = ValueError, aborted 400
before the job lookup); `token` is the `secrets.token_urlsafe(24)` value
generated before the lookup. -/
def create_invoice (db : DB) (cid jid : Nat) (amountParsed : Option Rat)
    (dueForm : Option String) (now token : String) : Except Http DB :=
  let due_date := parse_date_yyyy_mm_dd (dueForm.getD "")
  match amountParsed with
  | none => .error .badRequest
  | some amount =>
    match db.findJob jid cid with
    | none => .error .notFound
    | some _ =>
      let row : Invoice :=
        { id := db.nextInvoiceId, company_id := some cid,
          job_id := jid, amount := amount, status := "Unpaid", due_date := due_date,
          created_at := now, paid_at := none, public_token := some token,
          customer_email := none }
      .ok { db with invoices := db.invoices ++ [row],
                    nextInvoiceId := db.nextInvoiceId + 1 }

/-- GET `/pay/<token>` (app.py `public_invoice`): `SELECT i.*, c.name,
j.customer_name FROM invoices i JOIN companies c JOIN jobs j WHERE
i.public_token = ? LIMIT 1`; `none` models the 404. -/
def public_invoice (db : DB) (token : String) : Option (Invoice × String × String) :=
  match db.invoices.find? (fun i => i.public_token == some token) with
  | none => none
  | some i =>
    match i.company_id with
    | none => none
    | some cid =>
      match db.companies.find? (fun c => c.id == cid) with
      | none => none
      | some c =>
        match db.jobs.find? (fun j => j.id == i.job_id) with
        | none => none
        | some j => some (i, c.name, j.customer_name)

/-- POST `/mark_paid/<invoice_id>` (app.py `mark_paid`): in-tenant lookup
(404), then set status 'Paid' and stamp `paid_at` with the current time. -/
def mark_paid (db : DB) (cid iid : Nat) (now : String) : Except Http DB :=
  match db.findInvoice iid cid with
  | none => .error .notFound
  | some _ => .ok { db with invoices := db.invoices.map (invUpd iid cid now) }

/-- POST `/jobs/<job_id>/tasks/add` (app.py `add_task`): non-empty title
check (400) happens before the in-tenant job lookup (404). -/
def add_task (db : DB) (cid jid : Nat) (titleForm dueForm assigneeForm : Option String)
    (now : String) : Except Http DB :=
  let title := pyStrip (pyOrStr titleForm "")
  let due_date := parse_date_yyyy_mm_dd (dueForm.getD "")
  let assigned_to :=
    let a := pyStrip (pyOrStr assigneeForm "")
    if a = "" then none else some a
  if title = "" then .error .badRequest
  else
    match db.findJob jid cid with
    | none => .error .notFound
    | some _ =>
      let row : Task :=
        { id := db.nextTaskId, company_id := cid, job_id := jid,
          title := title, status := "todo", due_date := due_date,
          assigned_to := assigned_to, created_at := now }
      .ok { db with tasks := db.tasks ++ [row], nextTaskId := db.nextTaskId + 1 }

/-- The status flip in `toggle_task`:
`new_status = "done" if task["status"] != "done" else "todo"`. -/
def toggleStatus (s : String) : String :=
  if s ≠ "done" then "done" else "todo"

/-- POST `/tasks/<task_id>/toggle` (app.py `toggle_task`). -/
def toggle_task (db : DB) (cid tid : Nat) : Except Http DB :=
  match db.findTask tid cid with
  | none => .error .notFound
  | some task =>
    .ok { db with tasks := db.tasks.map (taskUpd tid cid (toggleStatus task.status)) }

/-- Result of GET/POST `/signup`. -/
inductive SignupResult where
  | renderForm (error : Option String)
  | loggedIn (user_id company_id : Nat)
deriving Repr, DecidableEq

/-- POST `/signup` (app.py `signup`), returning the response together with
the durable (committed) database state.  The handler commits the company
INSERT (`conn.commit()`, line 331) before executing the users INSERT; the
flag `userInsertFails` injects a persistence failure at that users INSERT
(e.g. a UNIQUE-constraint violation raced in after the duplicate check), in
which case the durable state still contains the committed company row. -/
def signup (db : DB) (companyNameF usernameF passwordF : Option String)
    (hash : String → String) (now : String) (userInsertFails : Bool) :
    SignupResult × DB :=
  let company_name := pyStrip (pyOrStr companyNameF "")
  let username := pyStrip (pyOrStr usernameF "")
  let password := pyStrip (pyOrStr passwordF "")
  if company_name = "" ∨ username = "" ∨ password = "" then
    (.renderForm (some "All fields are required."), db)
  else if pyLower username = "aptech_owner" then
    (.renderForm (some "That username is reserved. Please choose another."), db)
  else if db.users.any (fun u => u.username == username) then
    (.renderForm (some "That username is already taken. Try another."), db)
  else
    let cidNew := db.nextCompanyId
    let db1 : DB := { db with
      companies := db.companies ++ [{ id := cidNew, name := company_name, created_at := now }],
      nextCompanyId := cidNew + 1 }
    if userInsertFails then
      (.renderForm (some "persistence failure"), db1)
    else
      let uidNew := db1.nextUserId
      let row : User :=
        { id := uidNew, company_id := some cidNew,
          username := username, password_hash := hash password, role := "admin",
          created_at := now }
      let db2 : DB := { db1 with users := db1.users ++ [row], nextUserId := uidNew + 1 }
      (.loggedIn uidNew cidNew, db2)

/-- Result of GET/POST `/setup`. -/
inductive SetupResult where
  | redirectLogin
  | renderForm (error : Option String)
deriving Repr, DecidableEq

/-- GET/POST `/setup` (app.py `setup`): blocked (redirect to `/login`) as
soon as any user exists; otherwise a POST with all fields creates the first
company and admin user and backfills NULL `company_id` rows. -/
def setup (db : DB) (isPost : Bool) (companyNameF usernameF passwordF : Option String)
    (hash : String → String) (now : String) : SetupResult × DB :=
  if any_users_exist db then (.redirectLogin, db)
  else if isPost then
    let company_name := pyStrip (pyOrStr companyNameF "")
    let username := pyStrip (pyOrStr usernameF "")
    let password := pyStrip (pyOrStr passwordF "")
    if company_name = "" ∨ username = "" ∨ password = "" then
      (.renderForm (some "All fields are required."), db)
    else
      let cidNew := db.nextCompanyId
      let db1 : DB := { db with
        companies := db.companies ++ [{ id := cidNew, name := company_name, created_at := now }],
        nextCompanyId := cidNew + 1 }
      let urow : User :=
        { id := db1.nextUserId, company_id := some cidNew,
          username := username, password_hash := hash password, role := "admin",
          created_at := now }
      let db2 : DB := { db1 with users := db1.users ++ [urow],
                                 nextUserId := db1.nextUserId + 1 }
      let db3 : DB := { db2 with
        leads := db2.leads.map (fun l =>
          if l.company_id == none then { l with company_id := some cidNew } else l),
        jobs := db2.jobs.map (fun j =>
          if j.company_id == none then { j with company_id := some cidNew } else j),
        invoices := db2.invoices.map (fun i =>
          if i.company_id == none then { i with company_id := some cidNew } else i) }
      (.redirectLogin, db3)
  else (.renderForm none, db)

/-- The owner company name hard-coded in `ensure_super_admin`. -/
def ownerCompanyName : String := "APtech Solutions"

/-- First half of `ensure_super_admin`: look the owner company up by name and
insert (and commit) it when missing, returning its id and the committed
state. -/
def ensureOwnerCompany (db : DB) (now : String) : Nat × DB :=
  match db.companies.find? (fun c => c.name == ownerCompanyName) with
  | some c => (c.id, db)
  | none =>
    let row : Company :=
      { id := db.nextCompanyId, name := ownerCompanyName, created_at := now }
    (db.nextCompanyId,
      { db with companies := db.companies ++ [row],
                nextCompanyId := db.nextCompanyId + 1 })

/-- app.py `ensure_super_admin`, run at startup right after `init_db`.
`envPassword` is `os.environ.get("SUPER_ADMIN_PASSWORD")`; `.error` models
the raised `RuntimeError` (`if not password` treats both an unset variable
and the empty string as absent). -/
def ensure_super_admin (db : DB) (envPassword : Option String)
    (hash : String → String) (now : String) : Except String DB :=
  let oc := ensureOwnerCompany db now
  let db1 := oc.2
  if db1.users.any (fun u => u.role == "super_admin") then .ok db1
  else
    match envPassword with
    | none => .error "SUPER_ADMIN_PASSWORD is not set"
    | some p =>
      if p = "" then .error "SUPER_ADMIN_PASSWORD is not set"
      else
        let row : User :=
          { id := db1.nextUserId, company_id := some oc.1,
            username := "aptech_owner", password_hash := hash p, role := "super_admin",
            created_at := now }
        .ok { db1 with users := db1.users ++ [row], nextUserId := db1.nextUserId + 1 }

/-- The byte count passed to `secrets.token_urlsafe` at app.py line 611. -/
def tokenUrlsafeNBytes : Nat := 24

/-- The URL-safe base64 alphabet used by `base64.urlsafe_b64encode` (standard
base64 with `+` replaced by `-` and `/` by `_`), which underlies
`secrets.token_urlsafe`. -/
def urlsafeAlphabet : List Char :=
  "ABCDEFGHIJKLMNOPQRSTUVWXYZabcdefghijklmnopqrstuvwxyz0123456789-_".toList

/-- Character for one six-bit group. -/
def sextetChar (n : Nat) : Char :=
  urlsafeAlphabet.getD (n % 64) 'A'

/-- Base64url encoding of a byte list with padding stripped, exactly what
`secrets.token_urlsafe` produces from its random bytes. -/
def encodeGroups : List Nat → List Char
  | a :: b :: c :: rest =>
    sextetChar (a / 4) :: sextetChar (a % 4 * 16 + b / 16) ::
    sextetChar (b % 16 * 4 + c / 64) :: sextetChar (c % 64) :: encodeGroups rest
  | [a, b] => [sextetChar (a / 4), sextetChar (a % 4 * 16 + b / 16), sextetChar (b % 16 * 4)]
  | [a] => [sextetChar (a / 4), sextetChar (a % 4 * 16)]
  | [] => []

/-- `secrets.token_urlsafe` applied to the CSPRNG bytes it drew. -/
def token_urlsafe (bytes : List Nat) : String :=
  String.mk (encodeGroups bytes)

/-- URL-safe characters: unreserved alphanumerics plus `-` and `_`. -/
def isUrlSafeChar (ch : Char) : Bool :=
  ch.isAlphanum || ch == '-' || ch == '_'

/-- One state-mutating request to the application, with all of its inputs.
Read-only routes (dashboard, login, logout, owner view, public invoice view)
do not write the database and are omitted. -/
inductive Op where
  | opSetup (isPost : Bool) (cn un pw : Option String) (now : String)
  | opSignup (cn un pw : Option String) (now : String) (userInsertFails : Bool)
  | opEnsureSuperAdmin (env : Option String) (now : String)
  | opAddLead (cid : Nat) (name phone service src addr notes : Option String) (now : String)
  | opUpdateLeadStatus (cid lid : Nat) (st : Option String)
  | opConvertLead (cid lid : Nat) (sd tech : Option String) (now : String)
  | opUpdateJobStatus (cid jid : Nat) (st : Option String)
  | opCreateInvoice (cid jid : Nat) (amount : Option Rat) (due : Option String) (now token : String)
  | opMarkPaid (cid iid : Nat) (now : String)
  | opAddTask (cid jid : Nat) (title due assignee : Option String) (now : String)
  | opToggleTask (cid tid : Nat)
deriving Repr

/-- Durable database state after a request: the committed state on success,
the untouched state when the handler aborts (every abort in app.py happens
before the first INSERT/UPDATE of its handler), and for `signup` /
`ensure_super_admin` the state committed up to the failure point. -/
def Op.apply (hash : String → String) (db : DB) : Op → DB
  | opSetup isPost cn un pw now => (setup db isPost cn un pw hash now).2
  | opSignup cn un pw now fl => (signup db cn un pw hash now fl).2
  | opEnsureSuperAdmin env now =>
    match ensure_super_admin db env hash now with
    | .ok db' => db'
    | .error _ => (ensureOwnerCompany db now).2
  | opAddLead cid n p sv sr ad no now =>
    match add_lead db cid n p sv sr ad no now with
    | .ok db' => db'
    | .error _ => db
  | opUpdateLeadStatus cid lid st =>
    match update_lead_status db cid lid st with
    | .ok db' => db'
    | .error _ => db
  | opConvertLead cid lid sd tech now =>
    match convert_lead db cid lid sd tech now with
    | .ok db' => db'
    | .error _ => db
  | opUpdateJobStatus cid jid st =>
    match update_job_status db cid jid st with
    | .ok db' => db'
    | .error _ => db
  | opCreateInvoice cid jid amount due now token =>
    match create_invoice db cid jid amount due now token with
    | .ok db' => db'
    | .error _ => db
  | opMarkPaid cid iid now =>
    match mark_paid db cid iid now with
    | .ok db' => db'
    | .error _ => db
  | opAddTask cid jid t d a now =>
    match add_task db cid jid t d a now with
    | .ok db' => db'
    | .error _ => db
  | opToggleTask cid tid =>
    match toggle_task db cid tid with
    | .ok db' => db'
    | .error _ => db

/-- Durable state after a whole sequence of requests. -/
def applyOps (hash : String → String) (db : DB) (ops : List Op) : DB :=
  ops.foldl (Op.apply hash) db

/-
  Helper lemmas about the row-level SELECT/UPDATE combinators.
-/

lemma leadUpd_pred (lid cid : Nat) (st : String) (l : Lead) :
    ((leadUpd lid cid st l).id == lid && (leadUpd lid cid st l).company_id == some cid)
      = (l.id == lid && l.company_id == some cid) := by
  unfold leadUpd; split <;> rfl

lemma invUpd_pred (iid cid : Nat) (now : String) (i : Invoice) :
    ((invUpd iid cid now i).id == iid && (invUpd iid cid now i).company_id == some cid)
      = (i.id == iid && i.company_id == some cid) := by
  unfold invUpd; split <;> rfl

lemma taskUpd_pred (tid cid : Nat) (st : String) (t : Task) :
    ((taskUpd tid cid st t).id == tid && (taskUpd tid cid st t).company_id == cid)
      = (t.id == tid && t.company_id == cid) := by
  unfold taskUpd; split <;> rfl

lemma leadUpd_of_match (lid cid : Nat) (st : String) (l : Lead)
    (h : (l.id == lid && l.company_id == some cid) = true) :
    leadUpd lid cid st l = { l with status := st } := by
  unfold leadUpd; rw [h]; rfl

lemma invUpd_of_match (iid cid : Nat) (now : String) (i : Invoice)
    (h : (i.id == iid && i.company_id == some cid) = true) :
    invUpd iid cid now i = { i with status := "Paid", paid_at := some now } := by
  unfold invUpd; rw [h]; rfl

lemma taskUpd_of_match (tid cid : Nat) (st : String) (t : Task)
    (h : (t.id == tid && t.company_id == cid) = true) :
    taskUpd tid cid st t = { t with status := st } := by
  unfold taskUpd; rw [h]; rfl

lemma findLead_map_leadUpd (leads : List Lead) (lid cid : Nat) (st : String) :
    (leads.map (leadUpd lid cid st)).find? (fun l => l.id == lid && l.company_id == some cid)
      = (leads.find? (fun l => l.id == lid && l.company_id == some cid)).map
          (leadUpd lid cid st) := by
  rw [List.find?_map]
  have hp : ((fun l : Lead => l.id == lid && l.company_id == some cid) ∘ leadUpd lid cid st)
      = fun l : Lead => l.id == lid && l.company_id == some cid :=
    funext fun l => leadUpd_pred lid cid st l
  rw [hp]

lemma findInvoice_map_invUpd (invoices : List Invoice) (iid cid : Nat) (now : String) :
    (invoices.map (invUpd iid cid now)).find? (fun i => i.id == iid && i.company_id == some cid)
      = (invoices.find? (fun i => i.id == iid && i.company_id == some cid)).map
          (invUpd iid cid now) := by
  rw [List.find?_map]
  have hp : ((fun i : Invoice => i.id == iid && i.company_id == some cid) ∘ invUpd iid cid now)
      = fun i : Invoice => i.id == iid && i.company_id == some cid :=
    funext fun i => invUpd_pred iid cid now i
  rw [hp]

lemma findTask_map_taskUpd (tasks : List Task) (tid cid : Nat) (st : String) :
    (tasks.map (taskUpd tid cid st)).find? (fun t => t.id == tid && t.company_id == cid)
      = (tasks.find? (fun t => t.id == tid && t.company_id == cid)).map (taskUpd tid cid st) := by
  rw [List.find?_map]
  have hp : ((fun t : Task => t.id == tid && t.company_id == cid) ∘ taskUpd tid cid st)
      = fun t : Task => t.id == tid && t.company_id == cid :=
    funext fun t => taskUpd_pred tid cid st t
  rw [hp]

lemma findLead_none_of_cross (db : DB) (lid cid : Nat)
    (h : ∀ l ∈ db.leads, l.id = lid → l.company_id ≠ some cid) :
    db.findLead lid cid = none := by
  unfold DB.findLead
  rw [List.find?_eq_none]
  intro l hl
  simp only [Bool.and_eq_true, beq_iff_eq, not_and]
  intro hid
  exact h l hl hid

lemma findJob_none_of_cross (db : DB) (jid cid : Nat)
    (h : ∀ j ∈ db.jobs, j.id = jid → j.company_id ≠ some cid) :
    db.findJob jid cid = none := by
  unfold DB.findJob
  rw [List.find?_eq_none]
  intro j hj
  simp only [Bool.and_eq_true, beq_iff_eq, not_and]
  intro hid
  exact h j hj hid

lemma findInvoice_none_of_cross (db : DB) (iid cid : Nat)
    (h : ∀ i ∈ db.invoices, i.id = iid → i.company_id ≠ some cid) :
    db.findInvoice iid cid = none := by
  unfold DB.findInvoice
  rw [List.find?_eq_none]
  intro i hi
  simp only [Bool.and_eq_true, beq_iff_eq, not_and]
  intro hid
  exact h i hi hid

lemma findTask_none_of_cross (db : DB) (tid cid : Nat)
    (h : ∀ t ∈ db.tasks, t.id = tid → t.company_id ≠ cid) :
    db.findTask tid cid = none := by
  unfold DB.findTask
  rw [List.find?_eq_none]
  intro t ht
  simp only [Bool.and_eq_true, beq_iff_eq, not_and]
  intro hid
  exact h t ht hid

/-- C1: for every tenant-scoped mutation endpoint, a target entity whose
`company_id` differs from the session's company C yields 404 and leaves the
durable database state untouched: the entity is never visible or mutable
across tenants. -/
theorem cross_tenant_mutation_not_found_unmodified
    (db : DB) (hash : String → String) (cid lid jid iid tid : Nat)
    (stL stJ sdF techF dueF titleF dueTF asgF : Option String)
    (amount : Rat) (now tok : String)
    (hstL : pyStrip (pyOrStr stL "New") ∈ allowedLeadStatuses)
    (hstJ : pyStrip (pyOrStr stJ "Scheduled") ∈ allowedJobStatuses)
    (htitle : pyStrip (pyOrStr titleF "") ≠ "")
    (hLex : ∃ l ∈ db.leads, l.id = lid)
    (hJex : ∃ j ∈ db.jobs, j.id = jid)
    (hIex : ∃ i ∈ db.invoices, i.id = iid)
    (hTex : ∃ t ∈ db.tasks, t.id = tid)
    (hL : ∀ l ∈ db.leads, l.id = lid → l.company_id ≠ some cid)
    (hJ : ∀ j ∈ db.jobs, j.id = jid → j.company_id ≠ some cid)
    (hI : ∀ i ∈ db.invoices, i.id = iid → i.company_id ≠ some cid)
    (hT : ∀ t ∈ db.tasks, t.id = tid → t.company_id ≠ cid) :
    update_lead_status db cid lid stL = .error .notFound ∧
    convert_lead db cid lid sdF techF now = .error .notFound ∧
    update_job_status db cid jid stJ = .error .notFound ∧
    create_invoice db cid jid (some amount) dueF now tok = .error .notFound ∧
    mark_paid db cid iid now = .error .notFound ∧
    add_task db cid jid titleF dueTF asgF now = .error .notFound ∧
    toggle_task db cid tid = .error .notFound ∧
    Op.apply hash db (.opUpdateLeadStatus cid lid stL) = db ∧
    Op.apply hash db (.opConvertLead cid lid sdF techF now) = db ∧
    Op.apply hash db (.opUpdateJobStatus cid jid stJ) = db ∧
    Op.apply hash db (.opCreateInvoice cid jid (some amount) dueF now tok) = db ∧
    Op.apply hash db (.opMarkPaid cid iid now) = db ∧
    Op.apply hash db (.opAddTask cid jid titleF dueTF asgF now) = db ∧
    Op.apply hash db (.opToggleTask cid tid) = db := by
  have hfl := findLead_none_of_cross db lid cid hL
  have hfj := findJob_none_of_cross db jid cid hJ
  have hfi := findInvoice_none_of_cross db iid cid hI
  have hft := findTask_none_of_cross db tid cid hT
  have e1 : update_lead_status db cid lid stL = .error .notFound := by
    simp [update_lead_status, hstL, hfl]
  have e2 : convert_lead db cid lid sdF techF now = .error .notFound := by
    simp [convert_lead, hfl]
  have e3 : update_job_status db cid jid stJ = .error .notFound := by
    simp [update_job_status, hstJ, hfj]
  have e4 : create_invoice db cid jid (some amount) dueF now tok = .error .notFound := by
    simp [create_invoice, hfj]
  have e5 : mark_paid db cid iid now = .error .notFound := by
    simp [mark_paid, hfi]
  have e6 : add_task db cid jid titleF dueTF asgF now = .error .notFound := by
    simp [add_task, htitle, hfj]
  have e7 : toggle_task db cid tid = .error .notFound := by
    simp [toggle_task, hft]
  refine ⟨e1, e2, e3, e4, e5, e6, e7, ?_, ?_, ?_, ?_, ?_, ?_, ?_⟩ <;>
    simp [Op.apply, e1, e2, e3, e4, e5, e6, e7]

/-- A lead owned by company 2, used to exercise cross-tenant requests. -/
def c1lead : Lead :=
  { id := 1, company_id := some 2, name := "Jane", phone := "555-1000",
    status := "New", service_type := none, src := none, address := none,
    notes := none, created_at := "2024-01-01T00:00:00" }

/-- A job owned by company 2. -/
def c1job : Job :=
  { id := 1, company_id := some 2, lead_id := none, customer_name := "Jane",
    status := "Scheduled", scheduled_date := none, technician := none,
    notes := none, created_at := "2024-01-01T00:00:00" }

/-- An invoice owned by company 2. -/
def c1inv : Invoice :=
  { id := 1, company_id := some 2, job_id := 1, amount := 150,
    status := "Unpaid", due_date := none, created_at := "2024-01-01T00:00:00",
    paid_at := none, public_token := some "tokA", customer_email := none }

/-- A task owned by company 2. -/
def c1task : Task :=
  { id := 1, company_id := 2, job_id := 1, title := "follow up",
    status := "todo", due_date := none, assigned_to := none,
    created_at := "2024-01-01T00:00:00" }

/-- A database where every domain row belongs to company 2, while the
session under test carries company id 1. -/
def c1db : DB :=
  { emptyDB with
    leads := [c1lead], jobs := [c1job], invoices := [c1inv], tasks := [c1task],
    nextLeadId := 2, nextJobId := 2, nextInvoiceId := 2, nextTaskId := 2 }

/-- Witness for C1 at a concrete cross-tenant database. -/
theorem cross_tenant_mutation_not_found_unmodified_witness :
    update_lead_status c1db 1 1 (some "Won") = .error .notFound ∧
    convert_lead c1db 1 1 none none "t1" = .error .notFound ∧
    update_job_status c1db 1 1 (some "Completed") = .error .notFound ∧
    create_invoice c1db 1 1 (some 150) none "t1" "tokB" = .error .notFound ∧
    mark_paid c1db 1 1 "t1" = .error .notFound ∧
    add_task c1db 1 1 (some "call back") none none "t1" = .error .notFound ∧
    toggle_task c1db 1 1 = .error .notFound ∧
    Op.apply id c1db (.opUpdateLeadStatus 1 1 (some "Won")) = c1db ∧
    Op.apply id c1db (.opConvertLead 1 1 none none "t1") = c1db ∧
    Op.apply id c1db (.opUpdateJobStatus 1 1 (some "Completed")) = c1db ∧
    Op.apply id c1db (.opCreateInvoice 1 1 (some 150) none "t1" "tokB") = c1db ∧
    Op.apply id c1db (.opMarkPaid 1 1 "t1") = c1db ∧
    Op.apply id c1db (.opAddTask 1 1 (some "call back") none none "t1") = c1db ∧
    Op.apply id c1db (.opToggleTask 1 1) = c1db :=
  cross_tenant_mutation_not_found_unmodified c1db id 1 1 1 1 1
    (some "Won") (some "Completed") none none none (some "call back") none none
    150 "t1" "tokB"
    (by decide) (by decide) (by decide)
    (by decide) (by decide) (by decide) (by decide)
    (by decide) (by decide) (by decide) (by decide)

/-- A lead of company 1 whose status is 'Won', used to probe the status
allow-list behaviour. -/
def c2lead : Lead :=
  { id := 1, company_id := some 1, name := "Jane", phone := "555-1000",
    status := "Won", service_type := none, src := none, address := none,
    notes := none, created_at := "2024-01-01T00:00:00" }

/-- Database for the C2 counterexample. -/
def c2db : DB := { emptyDB with leads := [c2lead], nextLeadId := 2 }

/-- The database state after `update_lead_status` with a missing status. -/
def c2dbAfter : DB := { c2db with leads := [{ c2lead with status := "New" }] }

/-- C2 counterexample: a request with a missing (or empty) `status` field is
NOT rejected with 400; `(request.form.get("status") or "New")` silently
defaults it to 'New', the request succeeds, and the stored status changes
from 'Won' to 'New'. -/
theorem update_lead_status_blank_not_rejected :
    update_lead_status c2db 1 1 none = .ok c2dbAfter ∧
    update_lead_status c2db 1 1 (some "") = .ok c2dbAfter ∧
    c2db.findLead 1 1 = some c2lead ∧
    c2lead.status = "Won" ∧
    c2dbAfter.findLead 1 1 = some { c2lead with status := "New" } :=
  ⟨rfl, rfl, rfl, rfl, rfl⟩

/-- C2 (amended): submitted statuses outside the five allow-listed values are
rejected with 400 and the database is unmodified, and every successful call
stores exactly the computed status, which is always allow-listed; but a
missing or empty status field defaults to 'New' (and so succeeds) instead of
being rejected. -/
theorem update_lead_status_allowlist_amended
    (db : DB) (hash : String → String) (cid lid : Nat) (form : Option String) :
    ((form = none ∨ form = some "") → pyStrip (pyOrStr form "New") = "New") ∧
    (pyStrip (pyOrStr form "New") ∉ allowedLeadStatuses →
      update_lead_status db cid lid form = .error .badRequest ∧
      Op.apply hash db (.opUpdateLeadStatus cid lid form) = db) ∧
    (∀ db', update_lead_status db cid lid form = .ok db' →
      pyStrip (pyOrStr form "New") ∈ allowedLeadStatuses ∧
      db'.findLead lid cid =
        (db.findLead lid cid).map (fun l => { l with status := pyStrip (pyOrStr form "New") })) := by
  refine ⟨?_, ?_, ?_⟩
  · rintro (h | h) <;> subst h <;> rfl
  · intro hno
    have he : update_lead_status db cid lid form = .error .badRequest := by
      simp [update_lead_status, hno]
    exact ⟨he, by simp [Op.apply, he]⟩
  · intro db' h
    by_cases hin : pyStrip (pyOrStr form "New") ∈ allowedLeadStatuses
    · refine ⟨hin, ?_⟩
      rw [update_lead_status] at h
      simp only [hin, if_true] at h
      cases hfind : db.findLead lid cid with
      | none => rw [hfind] at h; cases h
      | some l =>
        rw [hfind] at h
        cases h
        have hmem := List.find?_some hfind
        show DB.findLead _ lid cid = _
        unfold DB.findLead
        rw [findLead_map_leadUpd]
        have : db.leads.find? (fun l => l.id == lid && l.company_id == some cid) = some l := hfind
        rw [this]
        simp only [Option.map_some']
        rw [leadUpd_of_match lid cid _ l hmem]
    · rw [update_lead_status] at h
      simp only [hin, if_false] at h
      cases h

/-- Witness for the amended C2 at concrete inputs: 'Bogus' is rejected with
400 and the database is untouched. -/
theorem update_lead_status_allowlist_amended_witness :
    pyStrip (pyOrStr (some "Bogus") "New") ∉ allowedLeadStatuses ∧
    update_lead_status c2db 1 1 (some "Bogus") = .error .badRequest ∧
    Op.apply id c2db (.opUpdateLeadStatus 1 1 (some "Bogus")) = c2db :=
  ⟨by decide,
    (update_lead_status_allowlist_amended c2db id 1 1 (some "Bogus")).2.1 (by decide)⟩

/-- C3 evidence: `signup` commits the company INSERT before the users
INSERT (app.py lines 327-342: `conn.commit()` sits between them), so a
persistence failure at the users INSERT leaves an orphaned company row with
no user — the sequence is not transactional.  With the same inputs and no
failure, both rows are created, confirming the inputs were valid. -/
theorem signup_user_insert_failure_leaves_orphan_company :
    (signup emptyDB (some "Acme") (some "bob") (some "pw") id "t0" true).2.companies
      = [{ id := 1, name := "Acme", created_at := "t0" }] ∧
    (signup emptyDB (some "Acme") (some "bob") (some "pw") id "t0" true).2.users = [] ∧
    (signup emptyDB (some "Acme") (some "bob") (some "pw") id "t0" false).2.companies
      = [{ id := 1, name := "Acme", created_at := "t0" }] ∧
    (signup emptyDB (some "Acme") (some "bob") (some "pw") id "t0" false).2.users
      = [{ id := 1, company_id := some 1, username := "bob", password_hash := "pw",
           role := "admin", created_at := "t0" }] :=
  ⟨rfl, rfl, rfl, rfl⟩

/-- The Job row inserted by `convert_lead`. -/
def convertJobRow (db : DB) (cid lid : Nat) (name : String) (sd tech : Option String)
    (t : String) : Job :=
  { id := db.nextJobId, company_id := some cid, lead_id := some lid,
    customer_name := name, status := "Scheduled",
    scheduled_date := parse_date_yyyy_mm_dd (sd.getD ""),
    technician := strOrNone (tech.getD ""), notes := none, created_at := t }

/-- The committed state of a successful `convert_lead`. -/
def convertPost (db : DB) (cid lid : Nat) (j : Job) : DB :=
  { db with jobs := db.jobs ++ [j], nextJobId := db.nextJobId + 1,
            leads := db.leads.map (leadUpd lid cid "Scheduled") }

/-- C4: converting an existing in-tenant lead inserts a Job copying the
lead's name with status 'Scheduled' and forces the lead's status to
'Scheduled' unconditionally (no hypothesis restricts the prior status);
converting the same lead a second time succeeds again, produces a second
job, and leaves the lead's status 'Scheduled' both times. -/
theorem convert_lead_unconditional_and_double
    (db : DB) (cid lid : Nat) (l : Lead)
    (h : db.findLead lid cid = some l)
    (sd1 tech1 sd2 tech2 : Option String) (t1 t2 : String) :
    ∃ db1 db2 j1 j2,
      convert_lead db cid lid sd1 tech1 t1 = .ok db1 ∧
      db1.jobs = db.jobs ++ [j1] ∧
      j1.customer_name = l.name ∧ j1.status = "Scheduled" ∧
      j1.lead_id = some lid ∧ j1.company_id = some cid ∧
      db1.findLead lid cid = some { l with status := "Scheduled" } ∧
      convert_lead db1 cid lid sd2 tech2 t2 = .ok db2 ∧
      db2.jobs = db.jobs ++ [j1, j2] ∧
      j2.customer_name = l.name ∧ j2.status = "Scheduled" ∧
      j2.lead_id = some lid ∧ j2.company_id = some cid ∧
      db2.findLead lid cid = some { l with status := "Scheduled" } := by
  have hmem := List.find?_some h
  have hLfind : db.leads.find? (fun x => x.id == lid && x.company_id == some cid)
      = some l := h
  have e1 : convert_lead db cid lid sd1 tech1 t1
      = .ok (convertPost db cid lid (convertJobRow db cid lid l.name sd1 tech1 t1)) := by
    simp only [convert_lead, h, convertPost, convertJobRow]
  have hf1 : (convertPost db cid lid (convertJobRow db cid lid l.name sd1 tech1 t1)).findLead
      lid cid = some { l with status := "Scheduled" } := by
    unfold DB.findLead convertPost
    rw [findLead_map_leadUpd, hLfind, Option.map_some',
      leadUpd_of_match lid cid _ l hmem]
  have hmem1 : (({ l with status := "Scheduled" } : Lead).id == lid &&
      ({ l with status := "Scheduled" } : Lead).company_id == some cid) = true := hmem
  have e2 : convert_lead (convertPost db cid lid (convertJobRow db cid lid l.name sd1 tech1 t1))
        cid lid sd2 tech2 t2
      = .ok (convertPost (convertPost db cid lid (convertJobRow db cid lid l.name sd1 tech1 t1))
          cid lid
          (convertJobRow (convertPost db cid lid (convertJobRow db cid lid l.name sd1 tech1 t1))
            cid lid l.name sd2 tech2 t2)) := by
    simp only [convert_lead]
    rw [hf1]
    rfl
  have hf2 : (convertPost (convertPost db cid lid (convertJobRow db cid lid l.name sd1 tech1 t1))
        cid lid
        (convertJobRow (convertPost db cid lid (convertJobRow db cid lid l.name sd1 tech1 t1))
          cid lid l.name sd2 tech2 t2)).findLead lid cid
      = some { l with status := "Scheduled" } := by
    unfold DB.findLead convertPost
    rw [findLead_map_leadUpd]
    have hinner : (db.leads.map (leadUpd lid cid "Scheduled")).find?
        (fun x => x.id == lid && x.company_id == some cid)
        = some ({ l with status := "Scheduled" }) := by
      rw [findLead_map_leadUpd, hLfind, Option.map_some',
        leadUpd_of_match lid cid _ l hmem]
    rw [hinner, Option.map_some', leadUpd_of_match lid cid _ _ hmem1]
  refine ⟨_, _, convertJobRow db cid lid l.name sd1 tech1 t1,
    convertJobRow (convertPost db cid lid (convertJobRow db cid lid l.name sd1 tech1 t1))
      cid lid l.name sd2 tech2 t2,
    e1, rfl, rfl, rfl, rfl, rfl, hf1, e2, ?_, rfl, rfl, rfl, rfl, hf2⟩
  show (db.jobs ++ [convertJobRow db cid lid l.name sd1 tech1 t1]) ++ [_] = _
  rw [List.append_assoc]
  rfl

/-- The committed state of a successful `mark_paid`. -/
def markPaidPost (db : DB) (cid iid : Nat) (now : String) : DB :=
  { db with invoices := db.invoices.map (invUpd iid cid now) }

/-- C5: marking an in-tenant invoice paid sets its status to 'Paid' and
stamps `paid_at` with the current time; a second call on the now-Paid
invoice succeeds again and overwrites `paid_at` with the newer timestamp
(no hypothesis restricts the invoice's prior status). -/
theorem mark_paid_reinvocable
    (db : DB) (cid iid : Nat) (inv : Invoice)
    (h : db.findInvoice iid cid = some inv) (t1 t2 : String) :
    mark_paid db cid iid t1 = .ok (markPaidPost db cid iid t1) ∧
    (markPaidPost db cid iid t1).findInvoice iid cid
      = some { inv with status := "Paid", paid_at := some t1 } ∧
    mark_paid (markPaidPost db cid iid t1) cid iid t2
      = .ok (markPaidPost (markPaidPost db cid iid t1) cid iid t2) ∧
    (markPaidPost (markPaidPost db cid iid t1) cid iid t2).findInvoice iid cid
      = some { inv with status := "Paid", paid_at := some t2 } := by
  have hmem := List.find?_some h
  have hIfind : db.invoices.find? (fun x => x.id == iid && x.company_id == some cid)
      = some inv := h
  have hf1 : (markPaidPost db cid iid t1).findInvoice iid cid
      = some { inv with status := "Paid", paid_at := some t1 } := by
    unfold DB.findInvoice markPaidPost
    rw [findInvoice_map_invUpd, hIfind, Option.map_some',
      invUpd_of_match iid cid _ inv hmem]
  have hmem1 : (({ inv with status := "Paid", paid_at := some t1 } : Invoice).id == iid &&
      ({ inv with status := "Paid", paid_at := some t1 } : Invoice).company_id == some cid)
      = true := hmem
  have e1 : mark_paid db cid iid t1 = .ok (markPaidPost db cid iid t1) := by
    simp only [mark_paid, h, markPaidPost]
  have e2 : mark_paid (markPaidPost db cid iid t1) cid iid t2
      = .ok (markPaidPost (markPaidPost db cid iid t1) cid iid t2) := by
    simp only [mark_paid]
    rw [hf1]
    rfl
  have hf2 : (markPaidPost (markPaidPost db cid iid t1) cid iid t2).findInvoice iid cid
      = some { inv with status := "Paid", paid_at := some t2 } := by
    unfold DB.findInvoice markPaidPost
    rw [findInvoice_map_invUpd]
    have hinner : (db.invoices.map (invUpd iid cid t1)).find?
        (fun x => x.id == iid && x.company_id == some cid)
        = some ({ inv with status := "Paid", paid_at := some t1 }) := by
      rw [findInvoice_map_invUpd, hIfind, Option.map_some',
        invUpd_of_match iid cid _ inv hmem]
    rw [hinner, Option.map_some', invUpd_of_match iid cid _ _ hmem1]
  exact ⟨e1, hf1, e2, hf2⟩

/-- An in-tenant lead with status 'Won' (deliberately not 'New') for the C4
witness. -/
def c4lead : Lead :=
  { id := 1, company_id := some 1, name := "Jane", phone := "555-1000",
    status := "Won", service_type := none, src := none, address := none,
    notes := none, created_at := "2024-01-01T00:00:00" }

/-- Database for the C4 witness. -/
def c4db : DB := { emptyDB with leads := [c4lead], nextLeadId := 2 }

/-- Witness for C4 at a concrete database: double conversion of a 'Won'
lead. -/
theorem convert_lead_unconditional_and_double_witness :
    ∃ db1 db2 j1 j2,
      convert_lead c4db 1 1 (some "2024-05-01") none "t1" = .ok db1 ∧
      db1.jobs = c4db.jobs ++ [j1] ∧
      j1.customer_name = c4lead.name ∧ j1.status = "Scheduled" ∧
      j1.lead_id = some 1 ∧ j1.company_id = some 1 ∧
      db1.findLead 1 1 = some { c4lead with status := "Scheduled" } ∧
      convert_lead db1 1 1 none none "t2" = .ok db2 ∧
      db2.jobs = c4db.jobs ++ [j1, j2] ∧
      j2.customer_name = c4lead.name ∧ j2.status = "Scheduled" ∧
      j2.lead_id = some 1 ∧ j2.company_id = some 1 ∧
      db2.findLead 1 1 = some { c4lead with status := "Scheduled" } :=
  convert_lead_unconditional_and_double c4db 1 1 c4lead (by decide)
    (some "2024-05-01") none none none "t1" "t2"

/-- An in-tenant unpaid invoice for the C5 witness. -/
def c5inv : Invoice :=
  { id := 1, company_id := some 1, job_id := 1, amount := 150,
    status := "Unpaid", due_date := some "2024-05-15",
    created_at := "2024-01-01T00:00:00", paid_at := none,
    public_token := some "tokC", customer_email := none }

/-- Database for the C5 witness. -/
def c5db : DB := { emptyDB with invoices := [c5inv], nextInvoiceId := 2 }

/-- Witness for C5 at a concrete database: paying the same invoice twice. -/
theorem mark_paid_reinvocable_witness :
    mark_paid c5db 1 1 "t1" = .ok (markPaidPost c5db 1 1 "t1") ∧
    (markPaidPost c5db 1 1 "t1").findInvoice 1 1
      = some { c5inv with status := "Paid", paid_at := some "t1" } ∧
    mark_paid (markPaidPost c5db 1 1 "t1") 1 1 "t2"
      = .ok (markPaidPost (markPaidPost c5db 1 1 "t1") 1 1 "t2") ∧
    (markPaidPost (markPaidPost c5db 1 1 "t1") 1 1 "t2").findInvoice 1 1
      = some { c5inv with status := "Paid", paid_at := some "t2" } :=
  mark_paid_reinvocable c5db 1 1 c5inv (by decide) "t1" "t2"

/-- No two invoice rows carry the same (non-NULL) `public_token`.  (SQL
`NULL` never equals anything, so only concrete tokens can collide.) -/
def tokensDistinct (db : DB) : Prop :=
  db.invoices.Pairwise
    (fun a b => ∀ t : String, a.public_token = some t → b.public_token ≠ some t)

/-- The Invoice row inserted by `create_invoice`. -/
def invoiceRow (db : DB) (cid jid : Nat) (amount : Rat) (due : Option String)
    (now token : String) : Invoice :=
  { id := db.nextInvoiceId, company_id := some cid, job_id := jid, amount := amount,
    status := "Unpaid", due_date := parse_date_yyyy_mm_dd (due.getD ""),
    created_at := now, paid_at := none, public_token := some token,
    customer_email := none }

/-- The committed state of a successful `create_invoice`. -/
def createPost (db : DB) (cid jid : Nat) (amount : Rat) (due : Option String)
    (now token : String) : DB :=
  { db with invoices := db.invoices ++ [invoiceRow db cid jid amount due now token],
            nextInvoiceId := db.nextInvoiceId + 1 }

lemma find?_token_none (invoices : List Invoice) (t : String)
    (h : ∀ i ∈ invoices, i.public_token ≠ some t) :
    invoices.find? (fun i => i.public_token == some t) = none := by
  rw [List.find?_eq_none]
  intro i hi
  simp only [beq_iff_eq]
  exact h i hi

/-- C6: with a fresh token from the generator, `create_invoice` appends an
invoice carrying exactly that token, keeps all stored tokens pairwise
distinct, and the unauthenticated `public_invoice` lookup of that token
returns exactly the new invoice together with its company's name and its
job's customer name; a token matching no invoice yields 404; the lookup
inspects only `public_token`, never the sequential id. -/
theorem create_invoice_token_unique_public_lookup
    (db : DB) (cid jid : Nat) (j : Job) (c : Company) (amount : Rat)
    (due : Option String) (now token : String)
    (hj : db.findJob jid cid = some j)
    (hjoin : db.jobs.find? (fun x => x.id == jid) = some j)
    (hc : db.companies.find? (fun x => x.id == cid) = some c)
    (hfresh : ∀ i ∈ db.invoices, i.public_token ≠ some token)
    (hdist : tokensDistinct db) :
    create_invoice db cid jid (some amount) due now token
      = .ok (createPost db cid jid amount due now token) ∧
    (createPost db cid jid amount due now token).invoices
      = db.invoices ++ [invoiceRow db cid jid amount due now token] ∧
    (invoiceRow db cid jid amount due now token).public_token = some token ∧
    tokensDistinct (createPost db cid jid amount due now token) ∧
    public_invoice (createPost db cid jid amount due now token) token
      = some (invoiceRow db cid jid amount due now token, c.name, j.customer_name) ∧
    (∀ t' : String,
      (∀ i ∈ (createPost db cid jid amount due now token).invoices,
        i.public_token ≠ some t') →
      public_invoice (createPost db cid jid amount due now token) t' = none) := by
  have e1 : create_invoice db cid jid (some amount) due now token
      = .ok (createPost db cid jid amount due now token) := by
    simp only [create_invoice]
    rw [hj]
    rfl
  have hdist' : tokensDistinct (createPost db cid jid amount due now token) := by
    unfold tokensDistinct createPost
    simp only []
    rw [List.pairwise_append]
    refine ⟨hdist, List.pairwise_singleton _ _, ?_⟩
    intro a ha b hb t hat
    simp only [List.mem_singleton] at hb
    subst hb
    intro hbt
    have : (invoiceRow db cid jid amount due now token).public_token = some token := rfl
    rw [this] at hbt
    cases hbt
    exact hfresh a ha hat
  have hlook : public_invoice (createPost db cid jid amount due now token) token
      = some (invoiceRow db cid jid amount due now token, c.name, j.customer_name) := by
    unfold public_invoice createPost
    simp only []
    rw [List.find?_append, find?_token_none db.invoices token hfresh]
    have hone : List.find? (fun i => i.public_token == some token)
        [invoiceRow db cid jid amount due now token]
        = some (invoiceRow db cid jid amount due now token) := by
      simp [List.find?, invoiceRow]
    rw [Option.none_or, hone]
    have hjoin' : db.jobs.find?
        (fun x => x.id == (invoiceRow db cid jid amount due now token).job_id) = some j := hjoin
    have hcid : (invoiceRow db cid jid amount due now token).company_id = some cid := rfl
    simp only [hcid, hc, hjoin']
  have hmiss : ∀ t' : String,
      (∀ i ∈ (createPost db cid jid amount due now token).invoices,
        i.public_token ≠ some t') →
      public_invoice (createPost db cid jid amount due now token) t' = none := by
    intro t' hnone
    unfold public_invoice
    rw [find?_token_none _ t' hnone]
  exact ⟨e1, rfl, rfl, hdist', hlook, hmiss⟩

/-- Company for the C6 witness. -/
def c6comp : Company := { id := 1, name := "Acme", created_at := "2024-01-01T00:00:00" }

/-- In-tenant job for the C6 witness. -/
def c6job : Job :=
  { id := 1, company_id := some 1, lead_id := none, customer_name := "Jane",
    status := "Scheduled", scheduled_date := none, technician := none,
    notes := none, created_at := "2024-01-01T00:00:00" }

/-- Database for the C6 witness. -/
def c6db : DB :=
  { emptyDB with
    companies := [c6comp], jobs := [c6job], nextCompanyId := 2, nextJobId := 2 }

/-- Witness for C6 at a concrete database and token. -/
theorem create_invoice_token_unique_public_lookup_witness :
    create_invoice c6db 1 1 (some 150) none "t1" "tokZ"
      = .ok (createPost c6db 1 1 150 none "t1" "tokZ") ∧
    (createPost c6db 1 1 150 none "t1" "tokZ").invoices
      = c6db.invoices ++ [invoiceRow c6db 1 1 150 none "t1" "tokZ"] ∧
    (invoiceRow c6db 1 1 150 none "t1" "tokZ").public_token = some "tokZ" ∧
    tokensDistinct (createPost c6db 1 1 150 none "t1" "tokZ") ∧
    public_invoice (createPost c6db 1 1 150 none "t1" "tokZ") "tokZ"
      = some (invoiceRow c6db 1 1 150 none "t1" "tokZ", c6comp.name, c6job.customer_name) ∧
    (∀ t' : String,
      (∀ i ∈ (createPost c6db 1 1 150 none "t1" "tokZ").invoices,
        i.public_token ≠ some t') →
      public_invoice (createPost c6db 1 1 150 none "t1" "tokZ") t' = none) :=
  create_invoice_token_unique_public_lookup c6db 1 1 c6job c6comp 150 none "t1" "tokZ"
    (by decide) (by decide) (by decide) (by decide) List.Pairwise.nil

lemma sextetChar_urlsafe (n : Nat) : isUrlSafeChar (sextetChar n) = true := by
  have key : ∀ m, m < 64 → isUrlSafeChar (urlsafeAlphabet.getD m 'A') = true := by decide
  exact key (n % 64) (Nat.mod_lt n (by decide))

lemma encodeGroups_urlsafe (bs : List Nat) :
    ∀ ch ∈ encodeGroups bs, isUrlSafeChar ch = true := by
  induction bs using encodeGroups.induct with
  | case1 a b c rest ih =>
    intro ch hch
    simp only [encodeGroups, List.mem_cons] at hch
    rcases hch with h | h | h | h | h
    · rw [h]; exact sextetChar_urlsafe _
    · rw [h]; exact sextetChar_urlsafe _
    · rw [h]; exact sextetChar_urlsafe _
    · rw [h]; exact sextetChar_urlsafe _
    · exact ih ch h
  | case2 a b =>
    intro ch hch
    simp only [encodeGroups, List.mem_cons, List.not_mem_nil, or_false] at hch
    rcases hch with h | h | h <;> (rw [h]; exact sextetChar_urlsafe _)
  | case3 a =>
    intro ch hch
    simp only [encodeGroups, List.mem_cons, List.not_mem_nil, or_false] at hch
    rcases hch with h | h <;> (rw [h]; exact sextetChar_urlsafe _)
  | case4 =>
    intro ch hch
    simp only [encodeGroups, List.not_mem_nil] at hch

/-- What one request may do to the users, invoices and tasks tables: users
only grow; invoices are unchanged, appended to, or rewritten row-by-row with
ids and public tokens preserved; every task row either carries a canonical
status or inherits the status of a pre-existing row. -/
def ShapeOK (db res : DB) : Prop :=
  (∃ tail, res.users = db.users ++ tail) ∧
  (res.invoices = db.invoices ∨
    (∃ tail, res.invoices = db.invoices ++ tail) ∨
    (∃ f, (∀ i : Invoice, (f i).id = i.id ∧ (f i).public_token = i.public_token) ∧
      res.invoices = db.invoices.map f)) ∧
  (∀ t ∈ res.tasks,
    t.status = "todo" ∨ t.status = "done" ∨ ∃ t0 ∈ db.tasks, t.status = t0.status)

lemma shapeOK_self (db : DB) : ShapeOK db db :=
  ⟨⟨[], (List.append_nil _).symm⟩, Or.inl rfl,
    fun t ht => Or.inr (Or.inr ⟨t, ht, rfl⟩)⟩

lemma invUpd_id_token (iid cid : Nat) (now : String) (i : Invoice) :
    (invUpd iid cid now i).id = i.id ∧ (invUpd iid cid now i).public_token = i.public_token := by
  unfold invUpd; split <;> exact ⟨rfl, rfl⟩

lemma add_lead_ok_shape {db : DB} {cid : Nat} {a b c' d e f : Option String} {now : String}
    {db' : DB} (h : add_lead db cid a b c' d e f now = .ok db') :
    db'.users = db.users ∧ db'.invoices = db.invoices ∧ db'.tasks = db.tasks := by
  unfold add_lead at h
  dsimp only at h
  split at h <;>
    first
    | exact (Except.noConfusion h)
    | (injection h with h; subst h; exact ⟨rfl, rfl, rfl⟩)

lemma update_lead_status_ok_shape {db : DB} {cid lid : Nat} {st : Option String}
    {db' : DB} (h : update_lead_status db cid lid st = .ok db') :
    db'.users = db.users ∧ db'.invoices = db.invoices ∧ db'.tasks = db.tasks := by
  unfold update_lead_status at h
  dsimp only at h
  split at h <;> (try split at h) <;>
    first
    | exact (Except.noConfusion h)
    | (injection h with h; subst h; exact ⟨rfl, rfl, rfl⟩)

lemma convert_lead_ok_shape {db : DB} {cid lid : Nat} {sd tech : Option String} {now : String}
    {db' : DB} (h : convert_lead db cid lid sd tech now = .ok db') :
    db'.users = db.users ∧ db'.invoices = db.invoices ∧ db'.tasks = db.tasks := by
  unfold convert_lead at h
  dsimp only at h
  split at h <;>
    first
    | exact (Except.noConfusion h)
    | (injection h with h; subst h; exact ⟨rfl, rfl, rfl⟩)

lemma update_job_status_ok_shape {db : DB} {cid jid : Nat} {st : Option String}
    {db' : DB} (h : update_job_status db cid jid st = .ok db') :
    db'.users = db.users ∧ db'.invoices = db.invoices ∧ db'.tasks = db.tasks := by
  unfold update_job_status at h
  dsimp only at h
  split at h <;> (try split at h) <;>
    first
    | exact (Except.noConfusion h)
    | (injection h with h; subst h; exact ⟨rfl, rfl, rfl⟩)

lemma create_invoice_ok_shape {db : DB} {cid jid : Nat} {amt : Option Rat}
    {due : Option String} {now tok : String} {db' : DB}
    (h : create_invoice db cid jid amt due now tok = .ok db') :
    db'.users = db.users ∧
    (∃ tail, db'.invoices = db.invoices ++ tail) ∧
    db'.tasks = db.tasks := by
  unfold create_invoice at h
  dsimp only at h
  split at h <;> (try split at h) <;>
    first
    | exact (Except.noConfusion h)
    | (injection h with h; subst h; exact ⟨rfl, ⟨_, rfl⟩, rfl⟩)

lemma mark_paid_ok_shape {db : DB} {cid iid : Nat} {now : String} {db' : DB}
    (h : mark_paid db cid iid now = .ok db') :
    db'.users = db.users ∧
    db'.invoices = db.invoices.map (invUpd iid cid now) ∧
    db'.tasks = db.tasks := by
  unfold mark_paid at h
  split at h <;>
    first
    | exact (Except.noConfusion h)
    | (injection h with h; subst h; exact ⟨rfl, rfl, rfl⟩)

lemma add_task_ok_shape {db : DB} {cid jid : Nat} {a b c' : Option String} {now : String}
    {db' : DB} (h : add_task db cid jid a b c' now = .ok db') :
    db'.users = db.users ∧ db'.invoices = db.invoices ∧
    (∀ t ∈ db'.tasks, t.status = "todo" ∨ t ∈ db.tasks) := by
  unfold add_task at h
  dsimp only at h
  split at h <;> (try split at h) <;>
    first
    | exact (Except.noConfusion h)
    | (injection h with h; subst h;
       exact ⟨rfl, rfl, by
        intro t ht
        simp only [List.mem_append, List.mem_singleton] at ht
        rcases ht with ht | ht
        · exact Or.inr ht
        · subst ht; exact Or.inl rfl⟩)

lemma toggle_task_ok_shape {db : DB} {cid tid : Nat} {db' : DB}
    (h : toggle_task db cid tid = .ok db') :
    db'.users = db.users ∧ db'.invoices = db.invoices ∧
    (∀ t ∈ db'.tasks, t.status = "todo" ∨ t.status = "done" ∨ t ∈ db.tasks) := by
  unfold toggle_task at h
  split at h <;>
    first
    | exact (Except.noConfusion h)
    | (injection h with h; subst h;
       exact ⟨rfl, rfl, by
        intro t ht
        simp only [List.mem_map] at ht
        obtain ⟨t0, ht0mem, ht0⟩ := ht
        subst ht0
        unfold taskUpd
        split
        · unfold toggleStatus
          split
          · exact Or.inr (Or.inl rfl)
          · exact Or.inl rfl
        · exact Or.inr (Or.inr ht0mem)⟩)

lemma shapeOK_of (db res : DB)
    (hu : res.users = db.users ∨ ∃ u, res.users = db.users ++ [u])
    (hi : res.invoices = db.invoices ∨ (∃ tail, res.invoices = db.invoices ++ tail) ∨
      (∃ f, (∀ i : Invoice, (f i).id = i.id ∧ (f i).public_token = i.public_token) ∧
        res.invoices = db.invoices.map f))
    (ht : ∀ t ∈ res.tasks,
      t.status = "todo" ∨ t.status = "done" ∨ ∃ t0 ∈ db.tasks, t.status = t0.status) :
    ShapeOK db res := by
  refine ⟨?_, hi, ht⟩
  rcases hu with h | ⟨u, h⟩
  · exact ⟨[], by rw [h, List.append_nil]⟩
  · exact ⟨[u], h⟩

lemma tasks_eq_shape {db res : DB} (h : res.tasks = db.tasks) :
    ∀ t ∈ res.tasks,
      t.status = "todo" ∨ t.status = "done" ∨ ∃ t0 ∈ db.tasks, t.status = t0.status :=
  fun t htt => Or.inr (Or.inr ⟨t, h ▸ htt, rfl⟩)

lemma backfill_id_token (cid : Nat) (i : Invoice) :
    ((if i.company_id == none then { i with company_id := some cid } else i) : Invoice).id
      = i.id ∧
    ((if i.company_id == none then { i with company_id := some cid } else i) : Invoice).public_token
      = i.public_token := by
  split <;> exact ⟨rfl, rfl⟩

lemma signup_snd_shape (db : DB) (cn un pw : Option String) (hash : String → String)
    (now : String) (fl : Bool) :
    ((signup db cn un pw hash now fl).2.users = db.users ∨
      ∃ u, (signup db cn un pw hash now fl).2.users = db.users ++ [u]) ∧
    (signup db cn un pw hash now fl).2.invoices = db.invoices ∧
    (signup db cn un pw hash now fl).2.tasks = db.tasks := by
  unfold signup
  dsimp only
  split_ifs <;>
    first
    | exact ⟨Or.inl rfl, rfl, rfl⟩
    | exact ⟨Or.inr ⟨_, rfl⟩, rfl, rfl⟩

lemma setup_snd_shape (db : DB) (isPost : Bool) (cn un pw : Option String)
    (hash : String → String) (now : String) :
    ((setup db isPost cn un pw hash now).2.users = db.users ∨
      ∃ u, (setup db isPost cn un pw hash now).2.users = db.users ++ [u]) ∧
    ((setup db isPost cn un pw hash now).2.invoices = db.invoices ∨
      ∃ f, (∀ i : Invoice, (f i).id = i.id ∧ (f i).public_token = i.public_token) ∧
        (setup db isPost cn un pw hash now).2.invoices = db.invoices.map f) ∧
    (setup db isPost cn un pw hash now).2.tasks = db.tasks := by
  unfold setup
  dsimp only
  split_ifs <;>
    first
    | exact ⟨Or.inl rfl, Or.inl rfl, rfl⟩
    | exact ⟨Or.inr ⟨_, rfl⟩,
        Or.inr ⟨fun i => if i.company_id == none
            then { i with company_id := some db.nextCompanyId } else i,
          fun i => backfill_id_token db.nextCompanyId i, rfl⟩, rfl⟩

lemma ensureOwnerCompany_snd_shape (db : DB) (now : String) :
    (ensureOwnerCompany db now).2.users = db.users ∧
    (ensureOwnerCompany db now).2.invoices = db.invoices ∧
    (ensureOwnerCompany db now).2.tasks = db.tasks := by
  unfold ensureOwnerCompany
  split <;> exact ⟨rfl, rfl, rfl⟩

lemma ensure_super_admin_ok_shape {db : DB} {env : Option String} {hash : String → String}
    {now : String} {db' : DB} (h : ensure_super_admin db env hash now = .ok db') :
    (db'.users = db.users ∨ ∃ u, db'.users = db.users ++ [u]) ∧
    db'.invoices = db.invoices ∧ db'.tasks = db.tasks := by
  obtain ⟨hu, hi, ht⟩ := ensureOwnerCompany_snd_shape db now
  unfold ensure_super_admin at h
  dsimp only at h
  split at h
  · injection h with h; subst h; exact ⟨Or.inl hu, hi, ht⟩
  · split at h
    · exact (Except.noConfusion h)
    · split at h
      · exact (Except.noConfusion h)
      · rename_i p hp
        injection h with h; subst h
        refine ⟨Or.inr ⟨⟨(ensureOwnerCompany db now).2.nextUserId,
          some (ensureOwnerCompany db now).1, "aptech_owner", hash p,
          "super_admin", now⟩, ?_⟩, hi, ht⟩
        show (ensureOwnerCompany db now).2.users ++ _ = db.users ++ _
        rw [hu]

/-- Every request preserves the `ShapeOK` relation between the pre- and
post-state: users only grow, invoice ids and public tokens are never
rewritten, task statuses stay canonical or inherited. -/
lemma apply_shape (hash : String → String) (db : DB) (op : Op) :
    ShapeOK db (Op.apply hash db op) := by
  cases op with
  | opSetup isPost cn un pw now =>
    obtain ⟨hu, hi, ht⟩ := setup_snd_shape db isPost cn un pw hash now
    refine shapeOK_of db _ hu ?_ (tasks_eq_shape ht)
    rcases hi with h | ⟨f, hf, hmap⟩
    · exact Or.inl h
    · exact Or.inr (Or.inr ⟨f, hf, hmap⟩)
  | opSignup cn un pw now fl =>
    obtain ⟨hu, hi, ht⟩ := signup_snd_shape db cn un pw hash now fl
    exact shapeOK_of db _ hu (Or.inl hi) (tasks_eq_shape ht)
  | opEnsureSuperAdmin env now =>
    simp only [Op.apply]
    cases hE : ensure_super_admin db env hash now with
    | error e =>
      obtain ⟨hu, hi, ht⟩ := ensureOwnerCompany_snd_shape db now
      exact shapeOK_of db _ (Or.inl hu) (Or.inl hi) (tasks_eq_shape ht)
    | ok db2 =>
      obtain ⟨hu, hi, ht⟩ := ensure_super_admin_ok_shape hE
      exact shapeOK_of db _ hu (Or.inl hi) (tasks_eq_shape ht)
  | opAddLead cid n p sv sr ad no now =>
    simp only [Op.apply]
    cases hE : add_lead db cid n p sv sr ad no now with
    | error e => exact shapeOK_self db
    | ok db2 =>
      obtain ⟨hu, hi, ht⟩ := add_lead_ok_shape hE
      exact shapeOK_of db _ (Or.inl hu) (Or.inl hi) (tasks_eq_shape ht)
  | opUpdateLeadStatus cid lid st =>
    simp only [Op.apply]
    cases hE : update_lead_status db cid lid st with
    | error e => exact shapeOK_self db
    | ok db2 =>
      obtain ⟨hu, hi, ht⟩ := update_lead_status_ok_shape hE
      exact shapeOK_of db _ (Or.inl hu) (Or.inl hi) (tasks_eq_shape ht)
  | opConvertLead cid lid sd tech now =>
    simp only [Op.apply]
    cases hE : convert_lead db cid lid sd tech now with
    | error e => exact shapeOK_self db
    | ok db2 =>
      obtain ⟨hu, hi, ht⟩ := convert_lead_ok_shape hE
      exact shapeOK_of db _ (Or.inl hu) (Or.inl hi) (tasks_eq_shape ht)
  | opUpdateJobStatus cid jid st =>
    simp only [Op.apply]
    cases hE : update_job_status db cid jid st with
    | error e => exact shapeOK_self db
    | ok db2 =>
      obtain ⟨hu, hi, ht⟩ := update_job_status_ok_shape hE
      exact shapeOK_of db _ (Or.inl hu) (Or.inl hi) (tasks_eq_shape ht)
  | opCreateInvoice cid jid amount due now token =>
    simp only [Op.apply]
    cases hE : create_invoice db cid jid amount due now token with
    | error e => exact shapeOK_self db
    | ok db2 =>
      obtain ⟨hu, hi, ht⟩ := create_invoice_ok_shape hE
      exact shapeOK_of db _ (Or.inl hu) (Or.inr (Or.inl hi)) (tasks_eq_shape ht)
  | opMarkPaid cid iid now =>
    simp only [Op.apply]
    cases hE : mark_paid db cid iid now with
    | error e => exact shapeOK_self db
    | ok db2 =>
      obtain ⟨hu, hi, ht⟩ := mark_paid_ok_shape hE
      exact shapeOK_of db _ (Or.inl hu)
        (Or.inr (Or.inr ⟨invUpd iid cid now, invUpd_id_token iid cid now, hi⟩))
        (tasks_eq_shape ht)
  | opAddTask cid jid t d a now =>
    simp only [Op.apply]
    cases hE : add_task db cid jid t d a now with
    | error e => exact shapeOK_self db
    | ok db2 =>
      obtain ⟨hu, hi, ht⟩ := add_task_ok_shape hE
      refine shapeOK_of db _ (Or.inl hu) (Or.inl hi) ?_
      intro tk htk
      rcases ht tk htk with h | h
      · exact Or.inl h
      · exact Or.inr (Or.inr ⟨tk, h, rfl⟩)
  | opToggleTask cid tid =>
    simp only [Op.apply]
    cases hE : toggle_task db cid tid with
    | error e => exact shapeOK_self db
    | ok db2 =>
      obtain ⟨hu, hi, ht⟩ := toggle_task_ok_shape hE
      refine shapeOK_of db _ (Or.inl hu) (Or.inl hi) ?_
      intro tk htk
      rcases ht tk htk with h | h | h
      · exact Or.inl h
      · exact Or.inr (Or.inl h)
      · exact Or.inr (Or.inr ⟨tk, h, rfl⟩)

/-- C7: the token passed to the invoice INSERT comes from
`secrets.token_urlsafe(24)` — 24 CSPRNG bytes = 192 ≥ 128 bits of entropy —
its base64url encoding uses only URL-safe characters, and no operation of
the application ever rewrites a stored invoice's `public_token`: the token
is generated once at creation and never rotated. -/
theorem public_token_entropy_urlsafe_never_rotated :
    128 ≤ 8 * tokenUrlsafeNBytes ∧
    (∀ bytes : List Nat, ∀ ch ∈ (token_urlsafe bytes).data, isUrlSafeChar ch = true) ∧
    (∀ (hash : String → String) (db : DB) (op : Op), ∀ i ∈ db.invoices,
      ∃ i' ∈ (Op.apply hash db op).invoices,
        i'.id = i.id ∧ i'.public_token = i.public_token) := by
  refine ⟨by decide, ?_, ?_⟩
  · intro bytes ch hch
    exact encodeGroups_urlsafe bytes ch hch
  · intro hash db op i hi
    rcases (apply_shape hash db op).2.1 with h | ⟨tail, h⟩ | ⟨f, hf, h⟩
    · exact ⟨i, by rw [h]; exact hi, rfl, rfl⟩
    · exact ⟨i, by rw [h]; exact List.mem_append_left _ hi, rfl, rfl⟩
    · exact ⟨f i, by rw [h]; exact List.mem_map_of_mem f hi, (hf i).1, (hf i).2⟩

/-- Witness for C7 at concrete inputs: a concrete byte string encodes to
URL-safe characters only, and `mark_paid` (the one UPDATE that touches
invoices) preserves the stored token. -/
theorem public_token_entropy_urlsafe_never_rotated_witness :
    128 ≤ 8 * tokenUrlsafeNBytes ∧
    (∀ ch ∈ (token_urlsafe [0, 255, 7, 62, 63, 100]).data, isUrlSafeChar ch = true) ∧
    (∃ i' ∈ (Op.apply id c5db (.opMarkPaid 1 1 "t1")).invoices,
      i'.id = c5inv.id ∧ i'.public_token = c5inv.public_token) :=
  ⟨public_token_entropy_urlsafe_never_rotated.1,
    fun ch hch =>
      public_token_entropy_urlsafe_never_rotated.2.1 [0, 255, 7, 62, 63, 100] ch hch,
    public_token_entropy_urlsafe_never_rotated.2.2 id c5db (.opMarkPaid 1 1 "t1")
      c5inv (by decide)⟩

/-- All task rows carry one of the two canonical statuses. -/
def tasksCanonical (db : DB) : Prop :=
  ∀ t ∈ db.tasks, t.status = "todo" ∨ t.status = "done"

lemma apply_tasksCanonical (hash : String → String) (db : DB) (op : Op)
    (h : tasksCanonical db) : tasksCanonical (Op.apply hash db op) := by
  intro t ht
  rcases (apply_shape hash db op).2.2 t ht with h1 | h1 | ⟨t0, ht0, hst⟩
  · exact Or.inl h1
  · exact Or.inr h1
  · rw [hst]; exact h t0 ht0

lemma applyOps_tasksCanonical (hash : String → String) (db : DB) (ops : List Op)
    (h : tasksCanonical db) : tasksCanonical (applyOps hash db ops) := by
  induction ops generalizing db with
  | nil => exact h
  | cons op ops ih => exact ih (Op.apply hash db op) (apply_tasksCanonical hash db op h)

/-- In any state reachable from a fresh database, every task's status is
`todo` or `done` — the hypothesis of the double-toggle property holds for
every task the application can ever store. -/
lemma reachable_tasksCanonical (hash : String → String) (ops : List Op) :
    tasksCanonical (applyOps hash emptyDB ops) :=
  applyOps_tasksCanonical hash emptyDB ops (fun t ht => absurd ht (by simp [emptyDB]))

/-- The committed state of a successful `toggle_task`. -/
def togglePost (db : DB) (cid tid : Nat) (st : String) : DB :=
  { db with tasks := db.tasks.map (taskUpd tid cid st) }

/-- C9: a single toggle maps any status other than 'done' (including 'todo')
to 'done' and 'done' to 'todo'; toggling an in-tenant task with a canonical
status twice returns it to exactly its original row. -/
theorem toggle_task_involution
    (db : DB) (cid tid : Nat) (task : Task)
    (h : db.findTask tid cid = some task)
    (hcanon : task.status = "todo" ∨ task.status = "done") :
    (∀ s : String, s ≠ "done" → toggleStatus s = "done") ∧
    toggleStatus "done" = "todo" ∧
    toggle_task db cid tid = .ok (togglePost db cid tid (toggleStatus task.status)) ∧
    (togglePost db cid tid (toggleStatus task.status)).findTask tid cid
      = some { task with status := toggleStatus task.status } ∧
    toggle_task (togglePost db cid tid (toggleStatus task.status)) cid tid
      = .ok (togglePost (togglePost db cid tid (toggleStatus task.status)) cid tid
          (toggleStatus (toggleStatus task.status))) ∧
    (togglePost (togglePost db cid tid (toggleStatus task.status)) cid tid
      (toggleStatus (toggleStatus task.status))).findTask tid cid = some task := by
  have hmem := List.find?_some h
  have hTfind : db.tasks.find? (fun x => x.id == tid && x.company_id == cid)
      = some task := h
  have hf1 : (togglePost db cid tid (toggleStatus task.status)).findTask tid cid
      = some { task with status := toggleStatus task.status } := by
    unfold DB.findTask togglePost
    rw [findTask_map_taskUpd, hTfind, Option.map_some',
      taskUpd_of_match tid cid _ task hmem]
  have hmem1 : (({ task with status := toggleStatus task.status } : Task).id == tid &&
      ({ task with status := toggleStatus task.status } : Task).company_id == cid)
      = true := hmem
  have e1 : toggle_task db cid tid
      = .ok (togglePost db cid tid (toggleStatus task.status)) := by
    simp only [toggle_task]
    rw [h]
    rfl
  have e2 : toggle_task (togglePost db cid tid (toggleStatus task.status)) cid tid
      = .ok (togglePost (togglePost db cid tid (toggleStatus task.status)) cid tid
          (toggleStatus (toggleStatus task.status))) := by
    simp only [toggle_task]
    rw [hf1]
    rfl
  have hround : toggleStatus (toggleStatus task.status) = task.status := by
    rcases hcanon with hc | hc <;> rw [hc] <;> rfl
  have hf2 : (togglePost (togglePost db cid tid (toggleStatus task.status)) cid tid
      (toggleStatus (toggleStatus task.status))).findTask tid cid = some task := by
    unfold DB.findTask togglePost
    rw [findTask_map_taskUpd]
    have hfind1 : (db.tasks.map (taskUpd tid cid (toggleStatus task.status))).find?
        (fun x => x.id == tid && x.company_id == cid)
        = some { task with status := toggleStatus task.status } := hf1
    rw [hfind1, Option.map_some', taskUpd_of_match tid cid _ _ hmem1, hround]
  refine ⟨?_, rfl, e1, hf1, e2, hf2⟩
  intro s hs
  unfold toggleStatus
  rw [if_pos hs]

/-- Task for the C9 witness. -/
def c9task : Task :=
  { id := 1, company_id := 1, job_id := 1, title := "follow up",
    status := "todo", due_date := none, assigned_to := none,
    created_at := "2024-01-01T00:00:00" }

/-- Database for the C9 witness. -/
def c9db : DB := { emptyDB with tasks := [c9task], nextTaskId := 2 }

/-- Witness for C9 at a concrete database. -/
theorem toggle_task_involution_witness :
    (∀ s : String, s ≠ "done" → toggleStatus s = "done") ∧
    toggleStatus "done" = "todo" ∧
    toggle_task c9db 1 1 = .ok (togglePost c9db 1 1 (toggleStatus c9task.status)) ∧
    (togglePost c9db 1 1 (toggleStatus c9task.status)).findTask 1 1
      = some { c9task with status := toggleStatus c9task.status } ∧
    toggle_task (togglePost c9db 1 1 (toggleStatus c9task.status)) 1 1
      = .ok (togglePost (togglePost c9db 1 1 (toggleStatus c9task.status)) 1 1
          (toggleStatus (toggleStatus c9task.status))) ∧
    (togglePost (togglePost c9db 1 1 (toggleStatus c9task.status)) 1 1
      (toggleStatus (toggleStatus c9task.status))).findTask 1 1 = some c9task :=
  toggle_task_involution c9db 1 1 c9task (by decide) (Or.inl rfl)

/-- The state committed by `ensure_super_admin` when it has to create the
super-admin user. -/
def bootPost (db : DB) (now : String) (hash : String → String) (p : String) : DB :=
  { (ensureOwnerCompany db now).2 with
    users := (ensureOwnerCompany db now).2.users ++
      [⟨(ensureOwnerCompany db now).2.nextUserId, some (ensureOwnerCompany db now).1,
        "aptech_owner", hash p, "super_admin", now⟩],
    nextUserId := (ensureOwnerCompany db now).2.nextUserId + 1 }

lemma ensureOwnerCompany_owner_count (db : DB) (now : String)
    (howner : db.companies.countP (fun c => c.name == ownerCompanyName) ≤ 1) :
    (ensureOwnerCompany db now).2.companies.countP
      (fun c => c.name == ownerCompanyName) = 1 := by
  unfold ensureOwnerCompany
  cases hF : db.companies.find? (fun c => c.name == ownerCompanyName) with
  | some c =>
    dsimp only
    have hcmem : c ∈ db.companies := List.mem_of_find?_eq_some hF
    have hcp := @List.find?_some Company (fun x => x.name == ownerCompanyName)
      c db.companies hF
    have h1 : 0 < db.companies.countP (fun c => c.name == ownerCompanyName) :=
      List.countP_pos_iff.mpr ⟨c, hcmem, hcp⟩
    omega
  | none =>
    dsimp only
    have h0 : db.companies.countP (fun c => c.name == ownerCompanyName) = 0 :=
      List.countP_eq_zero.mpr (fun c hc => by
        have := List.find?_eq_none.mp hF c hc
        simpa using this)
    rw [List.countP_append, h0]
    rfl

lemma ensure_super_admin_ok_has_super {db : DB} {env : Option String}
    {hash : String → String} {now : String} {db' : DB}
    (h : ensure_super_admin db env hash now = .ok db') :
    ∃ u ∈ db'.users, u.role = "super_admin" := by
  unfold ensure_super_admin at h
  dsimp only at h
  split at h
  · rename_i hany
    injection h with h; subst h
    obtain ⟨u, hu, hb⟩ := List.any_eq_true.mp hany
    exact ⟨u, hu, by simpa using hb⟩
  · split at h
    · exact (Except.noConfusion h)
    · split at h
      · exact (Except.noConfusion h)
      · rename_i p hp
        injection h with h; subst h
        exact ⟨⟨(ensureOwnerCompany db now).2.nextUserId,
          some (ensureOwnerCompany db now).1, "aptech_owner", hash p,
          "super_admin", now⟩, by simp, rfl⟩

lemma mem_users_apply (hash : String → String) (db : DB) (op : Op) {u : User}
    (hu : u ∈ db.users) : u ∈ (Op.apply hash db op).users := by
  obtain ⟨tail, htail⟩ := (apply_shape hash db op).1
  rw [htail]
  exact List.mem_append_left _ hu

/-- Process-level reachable database states (app.py lines 187-190: `init_db`
and `ensure_super_admin` run once at import).  A fresh file starts with
empty tables; each process start runs `ensure_super_admin` — when it raises,
the process dies but the owner-company INSERT it may already have committed
persists; a route handler can only execute inside a process whose startup
succeeded, and a successful `ensure_super_admin` guarantees a super_admin
user exists (its postcondition), a row no later request ever deletes or
modifies — so requests are gated on the presence of a super_admin user. -/
inductive appReach : DB → Prop where
  | init : appReach emptyDB
  | bootFail (db : DB) (now : String) :
      appReach db → appReach (ensureOwnerCompany db now).2
  | bootOk (db db' : DB) (env : Option String) (hash : String → String) (now : String) :
      appReach db → ensure_super_admin db env hash now = .ok db' → appReach db'
  | request (db : DB) (hash : String → String) (op : Op) (u : User) :
      appReach db → u ∈ db.users → u.role = "super_admin" →
      appReach (Op.apply hash db op)

/-- In every process-reachable state that still has no super_admin user, at
most one company named 'APtech Solutions' exists: before the first
successful bootstrap the only writer is `ensure_super_admin` itself, which
looks the owner company up before inserting it, and after any successful
bootstrap a super_admin user exists forever (users are never deleted), so
the premise can no longer hold — in particular a tenant signing up under
the name 'APtech Solutions' only happens in states with a super_admin. -/
lemma appReach_no_super_owner_count {db : DB} (h : appReach db) :
    (∀ u ∈ db.users, u.role ≠ "super_admin") →
    db.companies.countP (fun c => c.name == ownerCompanyName) ≤ 1 := by
  induction h with
  | init => intro _; simp [emptyDB]
  | bootFail db now hr ih =>
    intro hno
    have husers : (ensureOwnerCompany db now).2.users = db.users :=
      (ensureOwnerCompany_snd_shape db now).1
    rw [husers] at hno
    exact le_of_eq (ensureOwnerCompany_owner_count db now (ih hno))
  | bootOk db db' env hash now hr hok ih =>
    intro hno
    obtain ⟨u, hu, hrole⟩ := ensure_super_admin_ok_has_super hok
    exact absurd hrole (hno u hu)
  | request db hash op u hr hu hrole ih =>
    intro hno
    exact absurd hrole (hno u (mem_users_apply hash db op hu))

/-- C8: the startup bootstrap is idempotent on users: when a super_admin
user already exists it returns successfully without touching the users
table, and when none exists and the configured password is absent (unset or
empty) it raises — both unconditionally; when none exists and a password is
configured it ends with exactly one owner company and exactly one
super_admin user, given that at most one owner-named company exists
beforehand — and the final conjunct proves that side condition in every
process-reachable state in which this branch can fire. -/
theorem ensure_super_admin_bootstrap
    (db : DB) (env : Option String) (hash : String → String) (now : String) :
    ((∃ u ∈ db.users, u.role = "super_admin") →
      ∃ db', ensure_super_admin db env hash now = .ok db' ∧ db'.users = db.users) ∧
    ((∀ u ∈ db.users, u.role ≠ "super_admin") → (env = none ∨ env = some "") →
      ensure_super_admin db env hash now = .error "SUPER_ADMIN_PASSWORD is not set") ∧
    (∀ p : String, env = some p → p ≠ "" → (∀ u ∈ db.users, u.role ≠ "super_admin") →
      db.companies.countP (fun c => c.name == ownerCompanyName) ≤ 1 →
      ∃ db', ensure_super_admin db env hash now = .ok db' ∧
        db'.companies.countP (fun c => c.name == ownerCompanyName) = 1 ∧
        db'.users.countP (fun u => u.role == "super_admin") = 1) ∧
    (∀ db0 : DB, appReach db0 → (∀ u ∈ db0.users, u.role ≠ "super_admin") →
      db0.companies.countP (fun c => c.name == ownerCompanyName) ≤ 1) := by
  have hOCu : (ensureOwnerCompany db now).2.users = db.users :=
    (ensureOwnerCompany_snd_shape db now).1
  refine ⟨?_, ?_, ?_, ?_⟩
  · intro hx
    have hany : ((ensureOwnerCompany db now).2.users.any
        (fun u => u.role == "super_admin")) = true := by
      rw [hOCu, List.any_eq_true]
      obtain ⟨u, hu, hr⟩ := hx
      exact ⟨u, hu, by simp [hr]⟩
    refine ⟨(ensureOwnerCompany db now).2, ?_, hOCu⟩
    unfold ensure_super_admin
    dsimp only
    rw [hany]
    rfl
  · intro hno henv
    have hanyf : ((ensureOwnerCompany db now).2.users.any
        (fun u => u.role == "super_admin")) = false := by
      rw [hOCu, List.any_eq_false]
      intro u hu
      simpa using hno u hu
    unfold ensure_super_admin
    dsimp only
    rw [hanyf]
    rcases henv with h | h <;> subst h <;> rfl
  · intro p hp hpne hno howner
    subst hp
    have hOCc := ensureOwnerCompany_owner_count db now howner
    have hanyf : ((ensureOwnerCompany db now).2.users.any
        (fun u => u.role == "super_admin")) = false := by
      rw [hOCu, List.any_eq_false]
      intro u hu
      simpa using hno u hu
    have h0 : db.users.countP (fun u => u.role == "super_admin") = 0 :=
      List.countP_eq_zero.mpr (fun u hu => by simpa using hno u hu)
    refine ⟨bootPost db now hash p, ?_, hOCc, ?_⟩
    · unfold ensure_super_admin bootPost
      dsimp only
      rw [hanyf]
      simp only [Bool.false_eq_true, if_false]
      rw [if_neg hpne]
    · show ((ensureOwnerCompany db now).2.users ++ _).countP _ = 1
      rw [List.countP_append, hOCu, h0]
      rfl
  · intro db0 h0 hno0
    exact appReach_no_super_owner_count h0 hno0

/-- Witness for C8: bootstrapping a fresh database with a configured
password creates exactly one owner company and one super_admin user, and
the fresh database is a reachable state satisfying the owner-count side
condition. -/
theorem ensure_super_admin_bootstrap_witness :
    (∃ db', ensure_super_admin emptyDB (some "pw") id "t0" = .ok db' ∧
      db'.companies.countP (fun c => c.name == ownerCompanyName) = 1 ∧
      db'.users.countP (fun u => u.role == "super_admin") = 1) ∧
    emptyDB.companies.countP (fun c => c.name == ownerCompanyName) ≤ 1 :=
  ⟨(ensure_super_admin_bootstrap emptyDB (some "pw") id "t0").2.2.1
      "pw" rfl (by decide) (by decide) (by decide),
    (ensure_super_admin_bootstrap emptyDB (some "pw") id "t0").2.2.2
      emptyDB appReach.init (by decide)⟩

lemma applyOps_users_exist (hash : String → String) (db : DB) (ops : List Op)
    (h : any_users_exist db = true) : any_users_exist (applyOps hash db ops) = true := by
  induction ops generalizing db with
  | nil => exact h
  | cons op ops ih =>
    apply ih
    obtain ⟨tail, htail⟩ := (apply_shape hash db op).1
    unfold any_users_exist at h ⊢
    rw [htail]
    simp only [List.length_append, gt_iff_lt, decide_eq_true_eq] at h ⊢
    omega

/-- C10: after a successful bootstrap (`init_db` creates no rows, then
`ensure_super_admin` returns ok), at least one user exists, users are never
deleted by any later request, and every subsequent GET or POST to `/setup`
is answered with the redirect to `/login` and no state change — the
zero-users window in which `/setup` could create a first tenant never
occurs in a normally started process. -/
theorem setup_blocked_after_bootstrap
    (db db' : DB) (env : Option String) (hash : String → String) (now : String)
    (h : ensure_super_admin db env hash now = .ok db') :
    any_users_exist db' = true ∧
    (∀ (ops : List Op) (hash2 : String → String) (isPost : Bool)
      (cn un pw : Option String) (now2 : String),
      any_users_exist (applyOps hash2 db' ops) = true ∧
      setup (applyOps hash2 db' ops) isPost cn un pw hash2 now2
        = (.redirectLogin, applyOps hash2 db' ops)) := by
  have hx : any_users_exist db' = true := by
    unfold ensure_super_admin at h
    dsimp only at h
    split at h
    · rename_i hany
      injection h with h; subst h
      obtain ⟨u, hu, _⟩ := List.any_eq_true.mp hany
      unfold any_users_exist
      simp only [gt_iff_lt, decide_eq_true_eq]
      exact List.length_pos.mpr (List.ne_nil_of_mem hu)
    · split at h
      · exact (Except.noConfusion h)
      · split at h
        · exact (Except.noConfusion h)
        · injection h with h; subst h
          unfold any_users_exist
          simp only [gt_iff_lt, decide_eq_true_eq, List.length_append,
            List.length_singleton]
          omega
  refine ⟨hx, ?_⟩
  intro ops hash2 isPost cn un pw now2
  have hy := applyOps_users_exist hash2 db' ops hx
  refine ⟨hy, ?_⟩
  unfold setup
  rw [hy]
  rfl

/-- The durable state after bootstrapping a fresh database. -/
def c10db : DB := Op.apply id emptyDB (.opEnsureSuperAdmin (some "pw") "t0")

/-- A later request used by the C10 witness. -/
def c10op : Op := .opSignup (some "Beta Air") (some "bob") (some "pw2") "t1" false

/-- Witness for C10 at a concrete bootstrapped database and a concrete
subsequent request. -/
theorem setup_blocked_after_bootstrap_witness :
    any_users_exist c10db = true ∧
    any_users_exist (applyOps id c10db [c10op]) = true ∧
    setup (applyOps id c10db [c10op]) true (some "X") (some "y") (some "z") id "t2"
      = (.redirectLogin, applyOps id c10db [c10op]) :=
  ⟨(setup_blocked_after_bootstrap emptyDB c10db (some "pw") id "t0" rfl).1,
    ((setup_blocked_after_bootstrap emptyDB c10db (some "pw") id "t0" rfl).2
      [c10op] id true (some "X") (some "y") (some "z") "t2").1,
    ((setup_blocked_after_bootstrap emptyDB c10db (some "pw") id "t0" rfl).2
      [c10op] id true (some "X") (some "y") (some "z") "t2").2⟩
